import Mathlib

/-!
Shallow embedding of the quiz session engine of `src/App.js`
(a Zustand store plus the pure helper `calculateAnalysis`, and the
two UI-level handlers that gate store actions: `handleSelectAnswer`
and `handleFileChange`).

JavaScript `null`/`undefined` string fields are modelled as
`Option String`; the JS truthiness test `if (x)` on such a field is
the predicate `truthy` (false for `null`/`undefined` and for the
empty string).  JS numbers arising here are exact in the modelled
range, so scores and percentages are carried in `Rat`.
-/

namespace Quiz

/-- A question record of the imported corpus (fields used by the code). -/
structure Question where
  id : Nat
  text : String
  options : List String
  answer : String
  category : Option String
  subCategory : Option String
  explanation : Option String
deriving DecidableEq

/-- A corpus question augmented with the session-local fields that
`startQuiz` spreads in (`userAnswer: null, showAnswer: false`). -/
structure SessionQuestion extends Question where
  userAnswer : Option String
  showAnswer : Bool
deriving DecidableEq

/-- JS truthiness of a nullable string: `null`/`undefined` and `""` are falsy. -/
def truthy : Option String → Bool
  | none => false
  | some s => s != ""

/-- Per-topic running counters, mirroring `{ correct: 0, total: 0 }`. -/
structure TopicStat where
  correct : Nat
  total : Nat
deriving DecidableEq

/-- One rendered entry of `topicAnalysis`. -/
structure TopicEntry where
  topic : String
  accuracy : Rat
  correct : Nat
  total : Nat
deriving DecidableEq

/-- The result record returned by `calculateAnalysis`. -/
structure Report where
  score : Rat
  correctCount : Nat
  totalQuestions : Nat
  accuracy : Rat
  passed : Bool
  topicAnalysis : List TopicEntry
  answeredQuestions : List SessionQuestion
deriving DecidableEq

/-- The bucket key `q.category || 'General'` of the analysis loop. -/
def categoryKey (q : SessionQuestion) : String :=
  match q.category with
  | none => "General"
  | some s => if s = "" then "General" else s

/-- The JS object `topicStats` is modelled as an association list in
insertion order; `if (!topicStats[category]) topicStats[category] = {...}`. -/
def statsEnsure (stats : List (String × TopicStat)) (key : String) :
    List (String × TopicStat) :=
  if key ∈ stats.map Prod.fst then stats else stats ++ [(key, ⟨0, 0⟩)]

/-- In-place update `topicStats[key] = f (topicStats[key])`. -/
def statsUpdate (stats : List (String × TopicStat)) (key : String)
    (f : TopicStat → TopicStat) : List (String × TopicStat) :=
  stats.map (fun p => if p.1 = key then (p.1, f p.2) else p)

/-- The `topicStats` mutations of one iteration of the `questions.forEach`
loop in `calculateAnalysis`: ensure the bucket exists, then, when the
answer is truthy, bump `total` and, on a correct answer, `correct`. -/
def statsStep (stats : List (String × TopicStat)) (q : SessionQuestion) :
    List (String × TopicStat) :=
  let key := categoryKey q
  let stats1 := statsEnsure stats key
  if truthy q.userAnswer then
    let stats2 := statsUpdate stats1 key (fun st => { st with total := st.total + 1 })
    if q.userAnswer == some q.answer then
      statsUpdate stats2 key (fun st => { st with correct := st.correct + 1 })
    else stats2
  else stats1

/-- One iteration of the `questions.forEach` loop: the accumulator is
`(correctCount, incorrectCount, topicStats)`. -/
def analysisStep (acc : Nat × Nat × List (String × TopicStat))
    (q : SessionQuestion) : Nat × Nat × List (String × TopicStat) :=
  if truthy q.userAnswer then
    if q.userAnswer == some q.answer then
      (acc.1 + 1, acc.2.1, statsStep acc.2.2 q)
    else
      (acc.1, acc.2.1 + 1, statsStep acc.2.2 q)
  else
    (acc.1, acc.2.1, statsStep acc.2.2 q)

/-- `calculateAnalysis` of `App.js`: negative marking of 0.25 per wrong
answer, accuracy over all questions, pass threshold `totalQuestions * 0.6`
compared against the penalised score. -/
def calculateAnalysis (questions : List SessionQuestion) : Report :=
  let totalQuestions := questions.length
  let acc := questions.foldl analysisStep (0, 0, [])
  let correctCount := acc.1
  let incorrectCount := acc.2.1
  let topicStats := acc.2.2
  let score : Rat := (correctCount : Rat) - (incorrectCount : Rat) * (1 / 4)
  let accuracy : Rat :=
    if 0 < totalQuestions then ((correctCount : Rat) / (totalQuestions : Rat)) * 100 else 0
  let passed : Bool :=
    if 0 < totalQuestions then decide ((totalQuestions : Rat) * (3 / 5) ≤ score) else false
  let topicAnalysis : List TopicEntry := topicStats.map (fun p =>
    { topic := p.1
      accuracy := if 0 < p.2.total then ((p.2.correct : Rat) / (p.2.total : Rat)) * 100 else 0
      correct := p.2.correct
      total := p.2.total })
  { score := score, correctCount := correctCount, totalQuestions := totalQuestions,
    accuracy := accuracy, passed := passed, topicAnalysis := topicAnalysis,
    answeredQuestions := questions }

/-- The Zustand store state of `useQuizStore`. -/
structure QuizState where
  allQuestions : List Question
  questions : List SessionQuestion
  currentQuestionIndex : Nat
  isTestRunning : Bool
  startTime : Nat
  finalResults : Option Report
  testDurationMinutes : Nat
deriving DecidableEq

/-- The initial store state. -/
def initialState : QuizState :=
  { allQuestions := [], questions := [], currentQuestionIndex := 0,
    isTestRunning := false, startTime := 0, finalResults := none,
    testDurationMinutes := 0 }

/-- The quiz configuration handed to `startQuiz` by `handleStartQuiz`. -/
structure QuizConfig where
  type : String
  value : String
  count : Nat
deriving DecidableEq

/-- `loadQuestions` store action: replaces `allQuestions`, nothing else. -/
def loadQuestions (questions : List Question) (s : QuizState) : QuizState :=
  { s with allQuestions := questions }

/-- The filtering step of `startQuiz`: `subject` filters on `category`,
`paper` filters on `subCategory`, anything else keeps the whole bank. -/
def filterQuestions (config : QuizConfig) (allQuestions : List Question) :
    List Question :=
  if config.type = "subject" then
    allQuestions.filter (fun q => q.category == some config.value)
  else if config.type = "paper" then
    allQuestions.filter (fun q => q.subCategory == some config.value)
  else allQuestions

/-- `startQuiz` store action.  The comparator shuffle
`sort(() => 0.5 - Math.random())` is abstracted as a function parameter
`shuffle` (theorems assume it permutes its input); `Date.now()` is the
parameter `now`.  `Math.ceil(config.count * 1.2)` is the exact natural
ceiling of `6 * count / 5`. -/
def startQuiz (shuffle : List Question → List Question) (now : Nat)
    (config : QuizConfig) (s : QuizState) : QuizState :=
  let filteredQuestions := filterQuestions config s.allQuestions
  let shuffled := shuffle filteredQuestions
  let selectedQuestions := shuffled.take config.count
  let duration := (config.count * 6 + 4) / 5
  { s with
    questions := selectedQuestions.map (fun q =>
      { toQuestion := q, userAnswer := none, showAnswer := false }),
    currentQuestionIndex := 0,
    isTestRunning := true,
    startTime := now,
    finalResults := none,
    testDurationMinutes := duration }

/-- `selectAnswer` store action: sets `userAnswer` on every question whose
id matches; the store itself performs no already-answered check. -/
def selectAnswer (questionId : Nat) (answer : String) (s : QuizState) : QuizState :=
  { s with questions := s.questions.map (fun q =>
      if q.id == questionId then { q with userAnswer := some answer } else q) }

/-- `checkAnswer` store action: reveals the answer of the matching question. -/
def checkAnswer (questionId : Nat) (s : QuizState) : QuizState :=
  { s with questions := s.questions.map (fun q =>
      if q.id == questionId then { q with showAnswer := true } else q) }

/-- `navigateToQuestion` store action: in-range indices move the cursor,
out-of-range requests are ignored. -/
def navigateToQuestion (index : Int) (s : QuizState) : QuizState :=
  if 0 ≤ index ∧ index < (s.questions.length : Int) then
    { s with currentQuestionIndex := index.toNat }
  else s

/-- `submitTest` store action: unconditionally computes the analysis of the
current questions and stores it, stopping the test. -/
def submitTest (s : QuizState) : QuizState :=
  { s with finalResults := some (calculateAnalysis s.questions),
           isTestRunning := false }

/-- `reset` store action: all session fields back to their initial values,
`allQuestions` kept. -/
def reset (s : QuizState) : QuizState :=
  { s with questions := [], currentQuestionIndex := 0, isTestRunning := false,
           startTime := 0, finalResults := none, testDurationMinutes := 0 }

/-- `handleSelectAnswer` of `QuestionCard`: locks the answer once the
rendered question has a truthy `userAnswer`, else calls `selectAnswer`. -/
def handleSelectAnswer (question : SessionQuestion) (opt : String)
    (s : QuizState) : QuizState :=
  if truthy question.userAnswer then s else selectAnswer question.id opt s

/-- Outcome of `JSON.parse` on the chosen file, as far as
`handleFileChange` inspects it: either not an array (or a parse error),
or an array of question records. -/
inductive ParsedFile where
  | notArray : ParsedFile
  | array : List Question → ParsedFile
deriving DecidableEq

/-- `handleFileChange` of `HomePage`: loads the parsed content into the
bank iff it is a non-empty array; otherwise only an error message is set
and the bank is left untouched. -/
def handleFileChange (parsed : ParsedFile) (s : QuizState) : QuizState :=
  match parsed with
  | ParsedFile.notArray => s
  | ParsedFile.array qs => if 0 < qs.length then loadQuestions qs s else s

/-! Characterisations of what the analysis loop counts, used to state
closed-form theorems about `calculateAnalysis`. -/

/-- A question that `calculateAnalysis` counts as correct: truthy
`userAnswer` equal to `answer`. -/
def isCorrectQ (q : SessionQuestion) : Bool :=
  truthy q.userAnswer && (q.userAnswer == some q.answer)

/-- A question that `calculateAnalysis` counts as incorrect: truthy
`userAnswer` different from `answer`. -/
def isIncorrectQ (q : SessionQuestion) : Bool :=
  truthy q.userAnswer && !(q.userAnswer == some q.answer)

/-- A question that the analysis loop counts into the `total` of the
bucket keyed `k`. -/
def answeredInCat (k : String) (q : SessionQuestion) : Bool :=
  (categoryKey q == k) && truthy q.userAnswer

/-- A question that the analysis loop counts into the `correct` of the
bucket keyed `k`. -/
def correctInCat (k : String) (q : SessionQuestion) : Bool :=
  answeredInCat k q && (q.userAnswer == some q.answer)

/-- Lookup of a rendered topic bucket by its topic name, returning its
`(correct, total)` pair. -/
def lookupTopic (ta : List TopicEntry) (t : String) : Option (Nat × Nat) :=
  (ta.find? (fun e => e.topic == t)).map (fun e => (e.correct, e.total))

/-! Spec-side definitions, written from the claims rather than from the
code, for comparison with the code-derived behaviour. -/

/-- Modelled from the spec wording of C1: the number of questions with
non-null `userAnswer` equal to the correct answer. -/
def specCorrectCount (qs : List SessionQuestion) : Nat :=
  qs.countP (fun q => q.userAnswer != none && (q.userAnswer == some q.answer))

/-- Modelled from the spec wording of C1: the number of questions with
non-null `userAnswer` different from the correct answer. -/
def specIncorrectCount (qs : List SessionQuestion) : Nat :=
  qs.countP (fun q => q.userAnswer != none && !(q.userAnswer == some q.answer))

/-- Modelled from the spec wording of C8: a well-formed record has a
non-empty `options` list that contains its correct answer. -/
def specWellFormedQuestion (q : Question) : Bool :=
  !q.options.isEmpty && q.options.contains q.answer

/-! Concrete sample data for witnesses and counterexamples. -/

/-- A sample session question: options `a`/`b`, correct answer `a`. -/
def mkQ (n : Nat) (ua : Option String) : SessionQuestion :=
  { id := n, text := "q", options := ["a", "b"], answer := "a",
    category := none, subCategory := none, explanation := none,
    userAnswer := ua, showAnswer := false }

/-- Ten questions: six answered correctly, two answered incorrectly, two
unanswered (the worked example of the spec). -/
def ex10 : List SessionQuestion :=
  [mkQ 1 (some "a"), mkQ 2 (some "a"), mkQ 3 (some "a"), mkQ 4 (some "a"),
   mkQ 5 (some "a"), mkQ 6 (some "a"), mkQ 7 (some "b"), mkQ 8 (some "b"),
   mkQ 9 none, mkQ 10 none]

/-- A session question whose recorded answer is the empty string, which
is a selectable option: non-null but falsy in JS. -/
def qEmptyAns : SessionQuestion :=
  { id := 1, text := "q", options := ["", "a"], answer := "a",
    category := none, subCategory := none, explanation := none,
    userAnswer := some "", showAnswer := false }

/-- A running session whose single question is `qEmptyAns`. -/
def sEmptyAns : QuizState :=
  { allQuestions := [], questions := [qEmptyAns], currentQuestionIndex := 0,
    isTestRunning := true, startTime := 0, finalResults := none,
    testDurationMinutes := 2 }

/-- An unanswered question in category `X`. -/
def qUnansweredX : SessionQuestion :=
  { id := 1, text := "q", options := ["a"], answer := "a",
    category := some "X", subCategory := none, explanation := none,
    userAnswer := none, showAnswer := false }

/-- A correctly answered question with no category field. -/
def qGeneralAns : SessionQuestion :=
  { id := 7, text := "q", options := ["a"], answer := "a",
    category := none, subCategory := none, explanation := none,
    userAnswer := some "a", showAnswer := false }

/-- A bank question in category `A`, paper `P1`. -/
def bankQ (n : Nat) : Question :=
  { id := n, text := "q", options := ["a", "b"], answer := "a",
    category := some "A", subCategory := some "P1", explanation := none }

/-- A state holding a three-question bank of category `A`. -/
def sBank : QuizState :=
  { allQuestions := [bankQ 1, bankQ 2, bankQ 3], questions := [],
    currentQuestionIndex := 0, isTestRunning := false, startTime := 0,
    finalResults := none, testDurationMinutes := 0 }

/-- A malformed record: empty `options`, so `answer` cannot be one of them. -/
def badQ : Question :=
  { id := 1, text := "q", options := [], answer := "a",
    category := none, subCategory := none, explanation := none }

/-- A running two-question session used by navigation witnesses. -/
def sTwo : QuizState :=
  { allQuestions := [], questions := [mkQ 1 none, mkQ 2 none],
    currentQuestionIndex := 0, isTestRunning := true, startTime := 0,
    finalResults := none, testDurationMinutes := 3 }

/-- The combined per-question bucket increment of the analysis loop:
`total` grows on a truthy answer, `correct` on a truthy correct answer. -/
def bumpStat (q : SessionQuestion) (st : TopicStat) : TopicStat :=
  { correct := st.correct + (if isCorrectQ q then 1 else 0),
    total := st.total + (if truthy q.userAnswer then 1 else 0) }

/-- Invariant tying the running `topicStats` association list to the
prefix of questions already processed by the analysis loop. -/
def StatsInv (qs : List SessionQuestion) (stats : List (String × TopicStat)) : Prop :=
  (stats.map Prod.fst).Nodup ∧
  (∀ k, k ∈ stats.map Prod.fst ↔ k ∈ qs.map categoryKey) ∧
  (∀ p ∈ stats, p.2.total = qs.countP (answeredInCat p.1) ∧
    p.2.correct = qs.countP (correctInCat p.1))

/-! Helper lemmas about the analysis loop. -/

theorem analysisStep_fst (acc : Nat × Nat × List (String × TopicStat))
    (q : SessionQuestion) :
    (analysisStep acc q).1 = acc.1 + (if isCorrectQ q then 1 else 0) := by
  unfold analysisStep isCorrectQ
  cases htr : truthy q.userAnswer <;>
    cases heq : (q.userAnswer == some q.answer) <;> simp [htr, heq]

theorem analysisStep_snd (acc : Nat × Nat × List (String × TopicStat))
    (q : SessionQuestion) :
    (analysisStep acc q).2.1 = acc.2.1 + (if isIncorrectQ q then 1 else 0) := by
  unfold analysisStep isIncorrectQ
  cases htr : truthy q.userAnswer <;>
    cases heq : (q.userAnswer == some q.answer) <;> simp [htr, heq]

theorem analysisStep_stats (acc : Nat × Nat × List (String × TopicStat))
    (q : SessionQuestion) :
    (analysisStep acc q).2.2 = statsStep acc.2.2 q := by
  unfold analysisStep
  cases htr : truthy q.userAnswer <;>
    cases heq : (q.userAnswer == some q.answer) <;> simp [htr, heq]

theorem foldl_analysisStep_fst (qs : List SessionQuestion) :
    ∀ acc : Nat × Nat × List (String × TopicStat),
      (qs.foldl analysisStep acc).1 = acc.1 + qs.countP isCorrectQ := by
  induction qs with
  | nil => intro acc; simp
  | cons q qs ih =>
      intro acc
      rw [List.foldl_cons, ih, analysisStep_fst, List.countP_cons]
      cases hq : isCorrectQ q <;> simp [hq] <;> omega

theorem foldl_analysisStep_snd (qs : List SessionQuestion) :
    ∀ acc : Nat × Nat × List (String × TopicStat),
      (qs.foldl analysisStep acc).2.1 = acc.2.1 + qs.countP isIncorrectQ := by
  induction qs with
  | nil => intro acc; simp
  | cons q qs ih =>
      intro acc
      rw [List.foldl_cons, ih, analysisStep_snd, List.countP_cons]
      cases hq : isIncorrectQ q <;> simp [hq] <;> omega

theorem foldl_analysisStep_stats (qs : List SessionQuestion) :
    ∀ acc : Nat × Nat × List (String × TopicStat),
      (qs.foldl analysisStep acc).2.2 = qs.foldl statsStep acc.2.2 := by
  induction qs with
  | nil => intro acc; rfl
  | cons q qs ih =>
      intro acc
      rw [List.foldl_cons, ih, analysisStep_stats, List.foldl_cons]

theorem calculateAnalysis_correctCount (qs : List SessionQuestion) :
    (calculateAnalysis qs).correctCount = qs.countP isCorrectQ := by
  show (qs.foldl analysisStep (0, 0, [])).1 = qs.countP isCorrectQ
  rw [foldl_analysisStep_fst]
  simp

theorem calculateAnalysis_totalQuestions (qs : List SessionQuestion) :
    (calculateAnalysis qs).totalQuestions = qs.length := rfl

theorem calculateAnalysis_answeredQuestions (qs : List SessionQuestion) :
    (calculateAnalysis qs).answeredQuestions = qs := rfl

theorem calculateAnalysis_score (qs : List SessionQuestion) :
    (calculateAnalysis qs).score =
      (qs.countP isCorrectQ : Rat) - (qs.countP isIncorrectQ : Rat) * (1 / 4) := by
  show ((qs.foldl analysisStep (0, 0, [])).1 : Rat) -
      ((qs.foldl analysisStep (0, 0, [])).2.1 : Rat) * (1 / 4) = _
  rw [foldl_analysisStep_fst, foldl_analysisStep_snd]
  norm_num

theorem calculateAnalysis_accuracy (qs : List SessionQuestion) :
    (calculateAnalysis qs).accuracy =
      if 0 < qs.length then ((qs.countP isCorrectQ : Rat) / (qs.length : Rat)) * 100
      else 0 := by
  show (if 0 < qs.length then (((qs.foldl analysisStep (0, 0, [])).1 : Rat) / (qs.length : Rat)) * 100 else 0) = _
  rw [foldl_analysisStep_fst]
  norm_num

theorem calculateAnalysis_passed (qs : List SessionQuestion) :
    ((calculateAnalysis qs).passed = true ↔
      0 < qs.length ∧ (qs.length : Rat) * (3 / 5) ≤ (calculateAnalysis qs).score) := by
  show (if 0 < qs.length then decide ((qs.length : Rat) * (3 / 5) ≤ ((qs.foldl analysisStep (0, 0, [])).1 : Rat) - ((qs.foldl analysisStep (0, 0, [])).2.1 : Rat) * (1 / 4)) else false) = true ↔ _
  have hs : (calculateAnalysis qs).score =
      ((qs.foldl analysisStep (0, 0, [])).1 : Rat) -
        ((qs.foldl analysisStep (0, 0, [])).2.1 : Rat) * (1 / 4) := rfl
  by_cases h : 0 < qs.length
  · simp [h, hs]
  · simp [h, hs]

/-! Helper lemmas about the `topicStats` association list. -/

theorem mem_statsEnsure {stats : List (String × TopicStat)} {k : String}
    {p : String × TopicStat} :
    p ∈ statsEnsure stats k ↔
      p ∈ stats ∨ (k ∉ stats.map Prod.fst ∧ p = (k, ⟨0, 0⟩)) := by
  unfold statsEnsure
  by_cases h : k ∈ stats.map Prod.fst <;> simp [h]

theorem map_fst_statsEnsure (stats : List (String × TopicStat)) (k : String) :
    (statsEnsure stats k).map Prod.fst =
      if k ∈ stats.map Prod.fst then stats.map Prod.fst
      else stats.map Prod.fst ++ [k] := by
  unfold statsEnsure
  by_cases h : k ∈ stats.map Prod.fst <;> simp [h]

theorem statsStep_eq (stats : List (String × TopicStat)) (q : SessionQuestion) :
    statsStep stats q = (statsEnsure stats (categoryKey q)).map
      (fun p => if p.1 = categoryKey q then (p.1, bumpStat q p.2) else p) := by
  unfold statsStep
  cases htr : truthy q.userAnswer
  · show statsEnsure stats (categoryKey q) = _
    have hid : ∀ p : String × TopicStat,
        (if p.1 = categoryKey q then (p.1, bumpStat q p.2) else p) = p := by
      intro p
      by_cases h : p.1 = categoryKey q
      · rw [if_pos h]
        show (p.1, bumpStat q p.2) = p
        rw [bumpStat]
        simp [isCorrectQ, htr]
      · rw [if_neg h]
    rw [List.map_congr_left (fun p _ => hid p), List.map_id']
  · cases heq : (q.userAnswer == some q.answer)
    · show statsUpdate (statsEnsure stats (categoryKey q)) (categoryKey q)
          (fun st => { st with total := st.total + 1 }) = _
      unfold statsUpdate
      apply List.map_congr_left
      intro p _
      by_cases h : p.1 = categoryKey q
      · rw [if_pos h, if_pos h, bumpStat]
        simp [isCorrectQ, htr, heq]
      · rw [if_neg h, if_neg h]
    · show statsUpdate (statsUpdate (statsEnsure stats (categoryKey q)) (categoryKey q)
          (fun st => { st with total := st.total + 1 })) (categoryKey q)
          (fun st => { st with correct := st.correct + 1 }) = _
      unfold statsUpdate
      rw [List.map_map]
      apply List.map_congr_left
      intro p _
      by_cases h : p.1 = categoryKey q
      · simp [h, bumpStat, isCorrectQ, htr, heq]
      · simp [h]

theorem answeredInCat_self (q : SessionQuestion) :
    answeredInCat (categoryKey q) q = truthy q.userAnswer := by
  simp [answeredInCat]

theorem correctInCat_self (q : SessionQuestion) :
    correctInCat (categoryKey q) q = isCorrectQ q := by
  simp [correctInCat, answeredInCat, isCorrectQ]

theorem answeredInCat_ne {k : String} {q : SessionQuestion}
    (h : ¬k = categoryKey q) : answeredInCat k q = false := by
  have hb : (categoryKey q == k) = false := by
    simp only [beq_eq_false_iff_ne, ne_eq]
    intro hc
    exact h hc.symm
  rw [answeredInCat, hb, Bool.false_and]

theorem correctInCat_ne {k : String} {q : SessionQuestion}
    (h : ¬k = categoryKey q) : correctInCat k q = false := by
  rw [correctInCat, answeredInCat_ne h, Bool.false_and]

theorem countP_append_singleton (p : SessionQuestion → Bool)
    (l : List SessionQuestion) (q : SessionQuestion) :
    (l ++ [q]).countP p = l.countP p + (if p q then 1 else 0) := by
  simp [List.countP_append, List.countP_cons]

theorem countP_eq_zero_of_fresh {qs : List SessionQuestion} {k : String}
    (h : k ∉ qs.map categoryKey) :
    qs.countP (answeredInCat k) = 0 ∧ qs.countP (correctInCat k) = 0 := by
  constructor <;>
  · rw [List.countP_eq_zero]
    intro q hq hab
    apply h
    rw [List.mem_map]
    refine ⟨q, hq, ?_⟩
    first
    | · rw [answeredInCat, Bool.and_eq_true, beq_iff_eq] at hab
        exact hab.1
    | · rw [correctInCat, answeredInCat, Bool.and_eq_true, Bool.and_eq_true,
          beq_iff_eq] at hab
        exact hab.1.1

theorem statsStep_inv {done : List SessionQuestion}
    {stats : List (String × TopicStat)} (q : SessionQuestion)
    (h : StatsInv done stats) : StatsInv (done ++ [q]) (statsStep stats q) := by
  obtain ⟨hnd, hmem, hcnt⟩ := h
  have hkeys : (statsStep stats q).map Prod.fst =
      (statsEnsure stats (categoryKey q)).map Prod.fst := by
    rw [statsStep_eq, List.map_map]
    apply List.map_congr_left
    intro p _
    by_cases hp : p.1 = categoryKey q <;> simp [hp]
  refine ⟨?_, ?_, ?_⟩
  · rw [hkeys, map_fst_statsEnsure]
    by_cases hk : categoryKey q ∈ stats.map Prod.fst
    · simpa [hk] using hnd
    · rw [if_neg hk]
      simp only [List.nodup_append, List.nodup_singleton, true_and]
      exact ⟨hnd, by simpa [List.disjoint_left] using hk⟩
  · intro k0
    rw [hkeys, map_fst_statsEnsure, List.map_append, List.map_singleton,
      List.mem_append]
    by_cases hk : categoryKey q ∈ stats.map Prod.fst
    · rw [if_pos hk]
      constructor
      · intro h0
        exact Or.inl ((hmem k0).mp h0)
      · rintro (h0 | h0)
        · exact (hmem k0).mpr h0
        · rw [List.mem_singleton] at h0
          rw [h0]
          exact hk
    · rw [if_neg hk, List.mem_append, hmem k0]
  · intro p hp
    rw [statsStep_eq, List.mem_map] at hp
    obtain ⟨p0, hp0, hbump⟩ := hp
    rw [mem_statsEnsure] at hp0
    by_cases hk : p0.1 = categoryKey q
    · rw [if_pos hk] at hbump
      subst hbump
      rcases hp0 with h0 | ⟨hfresh, h0⟩
      · obtain ⟨ht, hc⟩ := hcnt p0 h0
        constructor
        · show p0.2.total + (if truthy q.userAnswer then 1 else 0) =
            (done ++ [q]).countP (answeredInCat p0.1)
          rw [countP_append_singleton, hk, answeredInCat_self, ht, hk]
        · show p0.2.correct + (if isCorrectQ q then 1 else 0) =
            (done ++ [q]).countP (correctInCat p0.1)
          rw [countP_append_singleton, hk, correctInCat_self, hc, hk]
      · have hfresh2 : categoryKey q ∉ done.map categoryKey := fun hin =>
          hfresh ((hmem (categoryKey q)).mpr hin)
        have hz := countP_eq_zero_of_fresh hfresh2
        subst h0
        constructor
        · show (0 : Nat) + (if truthy q.userAnswer then 1 else 0) =
            (done ++ [q]).countP (answeredInCat (categoryKey q))
          rw [countP_append_singleton, answeredInCat_self, hz.1]
        · show (0 : Nat) + (if isCorrectQ q then 1 else 0) =
            (done ++ [q]).countP (correctInCat (categoryKey q))
          rw [countP_append_singleton, correctInCat_self, hz.2]
    · rw [if_neg hk] at hbump
      subst hbump
      rcases hp0 with h0 | ⟨hfresh, h0⟩
      · obtain ⟨ht, hc⟩ := hcnt p0 h0
        constructor
        · rw [countP_append_singleton, answeredInCat_ne hk, ht]
          simp
        · rw [countP_append_singleton, correctInCat_ne hk, hc]
          simp
      · rw [h0] at hk
        exact absurd rfl hk

theorem foldl_statsStep_inv (rest : List SessionQuestion) :
    ∀ (done : List SessionQuestion) (stats : List (String × TopicStat)),
      StatsInv done stats → StatsInv (done ++ rest) (rest.foldl statsStep stats) := by
  induction rest with
  | nil => intro done stats h; simpa using h
  | cons q rest ih =>
      intro done stats h
      have h2 := ih (done ++ [q]) (statsStep stats q) (statsStep_inv q h)
      rw [List.foldl_cons]
      simpa [List.append_assoc] using h2

theorem calculateAnalysis_statsInv (qs : List SessionQuestion) :
    StatsInv qs ((qs.foldl analysisStep (0, 0, [])).2.2) := by
  rw [foldl_analysisStep_stats]
  have h0 : StatsInv [] ([] : List (String × TopicStat)) := by
    refine ⟨List.nodup_nil, by simp, by simp⟩
  simpa using foldl_statsStep_inv qs [] [] h0

theorem topicAnalysis_topics (qs : List SessionQuestion) :
    (calculateAnalysis qs).topicAnalysis.map (fun e => e.topic) =
      ((qs.foldl analysisStep (0, 0, [])).2.2).map Prod.fst := by
  show (((qs.foldl analysisStep (0, 0, [])).2.2).map _).map _ = _
  rw [List.map_map]
  rfl

theorem topicAnalysis_mem {qs : List SessionQuestion} {e : TopicEntry}
    (he : e ∈ (calculateAnalysis qs).topicAnalysis) :
    ∃ p ∈ (qs.foldl analysisStep (0, 0, [])).2.2,
      e.topic = p.1 ∧ e.correct = p.2.correct ∧ e.total = p.2.total := by
  have he2 : e ∈ ((qs.foldl analysisStep (0, 0, [])).2.2).map (fun p =>
      ({ topic := p.1,
         accuracy := if 0 < p.2.total then ((p.2.correct : Rat) / (p.2.total : Rat)) * 100 else 0,
         correct := p.2.correct, total := p.2.total } : TopicEntry)) := he
  rw [List.mem_map] at he2
  obtain ⟨p, hp, hep⟩ := he2
  exact ⟨p, hp, by rw [← hep], by rw [← hep], by rw [← hep]⟩

/-! Helper lemmas for `startQuiz` and the duration formula. -/

theorem map_wrap_userAnswer (l : List Question) :
    ((l.map (fun q => ({ toQuestion := q, userAnswer := none, showAnswer := false } : SessionQuestion))).map (fun sq => sq.userAnswer)) = List.replicate l.length none := by
  induction l with
  | nil => rfl
  | cons q l ih => simp [ih, List.replicate_succ]

theorem map_wrap_showAnswer (l : List Question) :
    ((l.map (fun q => ({ toQuestion := q, userAnswer := none, showAnswer := false } : SessionQuestion))).map (fun sq => sq.showAnswer)) = List.replicate l.length false := by
  induction l with
  | nil => rfl
  | cons q l ih => simp [ih, List.replicate_succ]

theorem map_wrap_toQuestion (l : List Question) :
    ((l.map (fun q => ({ toQuestion := q, userAnswer := none, showAnswer := false } : SessionQuestion))).map (fun sq => sq.toQuestion)) = l := by
  induction l with
  | nil => rfl
  | cons q l ih => simp [ih]

theorem natCeil_six_fifths_aux (n m : Nat) (h1 : 6 * n ≤ 5 * m)
    (h2 : 5 * m ≤ 6 * n + 4) : (m : Int) = ⌈(n : Rat) * (6 / 5)⌉ := by
  rw [eq_comm, Int.ceil_eq_iff]
  have hq1 : (6 : Rat) * n ≤ 5 * m := by exact_mod_cast h1
  have hq2 : (5 : Rat) * m ≤ 6 * n + 4 := by exact_mod_cast h2
  have hmm : ((m : Int) : Rat) = (m : Rat) := by push_cast; rfl
  rw [hmm]
  constructor
  · linarith
  · linarith

theorem natCeil_six_fifths (n : Nat) :
    (((n * 6 + 4) / 5 : Nat) : Int) = ⌈(n : Rat) * (6 / 5)⌉ :=
  natCeil_six_fifths_aux n ((n * 6 + 4) / 5) (by omega) (by omega)

/-! Claim theorems. -/

/-- C1 (amended): for every list of session questions, `calculateAnalysis`
returns `score = correct - 0.25 * incorrect`, `accuracy` over all
questions (0 when empty) and `passed = (score >= 0.6 * total)` (false when
empty), where correct/incorrect count exactly the questions with a truthy
(non-null and non-empty) `userAnswer`; the worked 10-question example
yields score 5.5, accuracy 60, passed false. -/
theorem C1_score_formula :
    (∀ qs : List SessionQuestion,
      (calculateAnalysis qs).score =
        (qs.countP isCorrectQ : Rat) - (1 / 4) * (qs.countP isIncorrectQ : Rat) ∧
      (calculateAnalysis qs).correctCount = qs.countP isCorrectQ ∧
      (calculateAnalysis qs).totalQuestions = qs.length ∧
      (calculateAnalysis qs).accuracy =
        (if 0 < qs.length then ((qs.countP isCorrectQ : Rat) / (qs.length : Rat)) * 100 else 0) ∧
      ((calculateAnalysis qs).passed = true ↔
        0 < qs.length ∧ (qs.length : Rat) * (3 / 5) ≤ (calculateAnalysis qs).score)) ∧
    (calculateAnalysis ex10).score = 11 / 2 ∧
    (calculateAnalysis ex10).accuracy = 60 ∧
    (calculateAnalysis ex10).passed = false := by
  have hmain : ∀ qs : List SessionQuestion,
      (calculateAnalysis qs).score =
        (qs.countP isCorrectQ : Rat) - (1 / 4) * (qs.countP isIncorrectQ : Rat) ∧
      (calculateAnalysis qs).correctCount = qs.countP isCorrectQ ∧
      (calculateAnalysis qs).totalQuestions = qs.length ∧
      (calculateAnalysis qs).accuracy =
        (if 0 < qs.length then ((qs.countP isCorrectQ : Rat) / (qs.length : Rat)) * 100 else 0) ∧
      ((calculateAnalysis qs).passed = true ↔
        0 < qs.length ∧ (qs.length : Rat) * (3 / 5) ≤ (calculateAnalysis qs).score) := by
    intro qs
    refine ⟨?_, calculateAnalysis_correctCount qs, calculateAnalysis_totalQuestions qs,
      calculateAnalysis_accuracy qs, calculateAnalysis_passed qs⟩
    rw [calculateAnalysis_score]
    ring
  have hc : ex10.countP isCorrectQ = 6 := by decide
  have hi : ex10.countP isIncorrectQ = 2 := by decide
  have hl : ex10.length = 10 := by decide
  have hsc : (calculateAnalysis ex10).score = 11 / 2 := by
    rw [calculateAnalysis_score, hc, hi]
    norm_num
  refine ⟨hmain, hsc, ?_, ?_⟩
  · rw [calculateAnalysis_accuracy, hc, hl]
    norm_num
  · have hnp : ¬(0 < ex10.length ∧
        (ex10.length : Rat) * (3 / 5) ≤ (calculateAnalysis ex10).score) := by
      rw [hsc, hl]
      rintro ⟨-, habs⟩
      norm_num at habs
    cases hpass : (calculateAnalysis ex10).passed
    · rfl
    · exact absurd ((calculateAnalysis_passed ex10).mp hpass) hnp

/-- C1 counterexample: a question whose selected answer is the empty
string has a non-null `userAnswer`, yet the code scores it as unanswered,
so the claimed formula over non-null counts fails. -/
theorem C1_score_counterexample :
    qEmptyAns.userAnswer ≠ none ∧
    (calculateAnalysis [qEmptyAns]).score ≠
      (specCorrectCount [qEmptyAns] : Rat) -
        (1 / 4) * (specIncorrectCount [qEmptyAns] : Rat) := by
  constructor
  · decide
  · rw [calculateAnalysis_score]
    have h1 : [qEmptyAns].countP isCorrectQ = 0 := by decide
    have h2 : [qEmptyAns].countP isIncorrectQ = 0 := by decide
    have h3 : specCorrectCount [qEmptyAns] = 0 := by decide
    have h4 : specIncorrectCount [qEmptyAns] = 1 := by decide
    rw [h1, h2, h3, h4]
    norm_num

/-- C2 (amended): once a question has a truthy (non-null, non-empty)
`userAnswer`, any further `handleSelectAnswer` on it leaves the state
unchanged: a first non-empty answer `a` is recorded and a second call
with any option `b` is a no-op. -/
theorem C2_first_answer_locked (s : QuizState) (i : Nat) (q : SessionQuestion)
    (a b : String) (hq : s.questions[i]? = some q)
    (hun : truthy q.userAnswer = false) (ha : ¬a = "") :
    (handleSelectAnswer q a s).questions[i]? =
      some { q with userAnswer := some a } ∧
    handleSelectAnswer { q with userAnswer := some a } b
        (handleSelectAnswer q a s) = handleSelectAnswer q a s := by
  have h1 : handleSelectAnswer q a s = selectAnswer q.id a s := by
    simp [handleSelectAnswer, hun]
  have h2 : truthy (some a) = true := by
    show (a != "") = true
    simpa using ha
  constructor
  · rw [h1]
    show (s.questions.map (fun q0 =>
      if q0.id == q.id then { q0 with userAnswer := some a } else q0))[i]? = _
    rw [List.getElem?_map, hq]
    simp
  · rw [handleSelectAnswer]
    rw [show ({ q with userAnswer := some a } : SessionQuestion).userAnswer = some a from rfl, h2]
    rfl

/-- C2 witness: in a running two-question session, answering question 1
with `x` records `x`, and a later attempt to answer it with `y` changes
nothing. -/
theorem C2_first_answer_locked_witness :
    (sTwo.questions[0]? = some (mkQ 1 none) ∧
      truthy (mkQ 1 none).userAnswer = false ∧ ¬"x" = "") ∧
    ((handleSelectAnswer (mkQ 1 none) "x" sTwo).questions[0]? =
        some { mkQ 1 none with userAnswer := some "x" } ∧
      handleSelectAnswer { mkQ 1 none with userAnswer := some "x" } "y"
          (handleSelectAnswer (mkQ 1 none) "x" sTwo) =
        handleSelectAnswer (mkQ 1 none) "x" sTwo) :=
  ⟨⟨by decide, by decide, by decide⟩,
    C2_first_answer_locked sTwo 0 (mkQ 1 none) "x" "y" (by decide) (by decide) (by decide)⟩

/-- C2 counterexample: an empty-string answer is non-null, yet a second
`handleSelectAnswer` call overwrites it, so first-answer-final fails as
stated for non-null answers. -/
theorem C2_first_answer_counterexample :
    qEmptyAns.userAnswer ≠ none ∧
    ((handleSelectAnswer qEmptyAns "a" sEmptyAns).questions.map
      (fun q => q.userAnswer)) = [some "a"] ∧
    (some "a" : Option String) ≠ qEmptyAns.userAnswer := by decide

/-- C3 (amended): `topicAnalysis` has exactly one entry per category key
(`category || 'General'`) observed among all questions, answered or not;
each entry counts exactly the truthy-answered questions of its key, so a
category holding only unanswered questions yields an entry with
`total = 0`. -/
theorem C3_topic_buckets (qs : List SessionQuestion) :
    ((calculateAnalysis qs).topicAnalysis.map (fun e => e.topic)).Nodup ∧
    (∀ t : String,
      t ∈ (calculateAnalysis qs).topicAnalysis.map (fun e => e.topic) ↔
        t ∈ qs.map categoryKey) ∧
    (∀ e ∈ (calculateAnalysis qs).topicAnalysis,
      e.total = qs.countP (answeredInCat e.topic) ∧
      e.correct = qs.countP (correctInCat e.topic)) := by
  obtain ⟨hnd, hmem, hcnt⟩ := calculateAnalysis_statsInv qs
  refine ⟨?_, ?_, ?_⟩
  · rw [topicAnalysis_topics]
    exact hnd
  · intro t
    rw [topicAnalysis_topics]
    exact hmem t
  · intro e he
    obtain ⟨p, hp, h1, h2, h3⟩ := topicAnalysis_mem he
    obtain ⟨ht, hc⟩ := hcnt p hp
    rw [h3, h2, h1]
    exact ⟨ht, hc⟩

/-- C3 counterexample: a single unanswered question in category `X`
produces a `topicAnalysis` entry `("X", total = 0)`, contradicting both
"no entry for unanswered-only categories" and "total >= 1". -/
theorem C3_topic_buckets_counterexample :
    qUnansweredX.userAnswer = none ∧
    ((calculateAnalysis [qUnansweredX]).topicAnalysis.map
      (fun e => (e.topic, e.total))) = [("X", 0)] :=
  ⟨rfl, by decide⟩

/-- C4 (amended): `submitTest` is idempotent at the state level (a second
call recomputes the identical report and changes nothing) and only
touches `finalResults` and `isTestRunning`; it has no running guard, so
it always stores `calculateAnalysis` of the current questions. -/
theorem C4_submit_idempotent (s : QuizState) :
    submitTest (submitTest s) = submitTest s ∧
    (submitTest s).finalResults = some (calculateAnalysis s.questions) ∧
    (submitTest s).isTestRunning = false ∧
    (submitTest s).questions = s.questions ∧
    (submitTest s).allQuestions = s.allQuestions ∧
    (submitTest s).currentQuestionIndex = s.currentQuestionIndex ∧
    (submitTest s).startTime = s.startTime ∧
    (submitTest s).testDurationMinutes = s.testDurationMinutes :=
  ⟨rfl, rfl, rfl, rfl, rfl, rfl, rfl, rfl⟩

/-- C4 counterexample: calling `submitTest` from the idle initial state is
not a no-op — it produces a report for the empty question list. -/
theorem C4_submit_counterexample :
    initialState.isTestRunning = false ∧ submitTest initialState ≠ initialState :=
  ⟨rfl, by decide⟩

/-- C5 (amended): `startQuiz` performs no emptiness check: when the
configured filter matches no bank questions it still enters the running
state, with an empty question list. -/
theorem C5_empty_filter_starts (shuffle : List Question → List Question)
    (now : Nat) (config : QuizConfig) (s : QuizState)
    (hperm : (shuffle (filterQuestions config s.allQuestions)).Perm
      (filterQuestions config s.allQuestions))
    (hempty : filterQuestions config s.allQuestions = []) :
    (startQuiz shuffle now config s).isTestRunning = true ∧
    (startQuiz shuffle now config s).questions = [] := by
  rw [hempty] at hperm
  have h0 : shuffle (filterQuestions config s.allQuestions) = [] := by
    rw [hempty]
    exact hperm.eq_nil
  have hq : (startQuiz shuffle now config s).questions =
      ((shuffle (filterQuestions config s.allQuestions)).take config.count).map
        (fun q => ({ toQuestion := q, userAnswer := none, showAnswer := false } : SessionQuestion)) := rfl
  constructor
  · rfl
  · rw [hq, h0]
    simp

/-- C5 witness: a subject filter for `B` over a bank of category-`A`
questions matches nothing, yet `startQuiz` runs with zero questions. -/
theorem C5_empty_filter_starts_witness :
    (((fun l => l) (filterQuestions ⟨"subject", "B", 1⟩ sBank.allQuestions)).Perm
        (filterQuestions ⟨"subject", "B", 1⟩ sBank.allQuestions) ∧
      filterQuestions ⟨"subject", "B", 1⟩ sBank.allQuestions = []) ∧
    ((startQuiz (fun l => l) 0 ⟨"subject", "B", 1⟩ sBank).isTestRunning = true ∧
      (startQuiz (fun l => l) 0 ⟨"subject", "B", 1⟩ sBank).questions = []) :=
  ⟨⟨List.Perm.refl _, by decide⟩,
    C5_empty_filter_starts (fun l => l) 0 ⟨"subject", "B", 1⟩ sBank
      (List.Perm.refl _) (by decide)⟩

/-- C5 counterexample: with an empty filtered set the claim demands that
the session not enter Running, but the code sets `isTestRunning = true`. -/
theorem C5_empty_filter_counterexample :
    filterQuestions ⟨"subject", "B", 1⟩ sBank.allQuestions = [] ∧
    (startQuiz (fun l => l) 0 ⟨"subject", "B", 1⟩ sBank).isTestRunning = true ∧
    (startQuiz (fun l => l) 0 ⟨"subject", "B", 1⟩ sBank).questions = [] := by
  decide

/-- C6: `navigateToQuestion` moves the cursor exactly to in-range indices,
ignores out-of-range requests, and preserves the cursor invariant
`currentQuestionIndex < length questions`. -/
theorem C6_navigate_bounds (s : QuizState) (index : Int)
    (hne : s.questions ≠ [])
    (hinv : s.currentQuestionIndex < s.questions.length) :
    ((0 ≤ index ∧ index < (s.questions.length : Int)) →
      ((navigateToQuestion index s).currentQuestionIndex : Int) = index) ∧
    (¬(0 ≤ index ∧ index < (s.questions.length : Int)) →
      navigateToQuestion index s = s) ∧
    (navigateToQuestion index s).currentQuestionIndex <
      (navigateToQuestion index s).questions.length := by
  rw [navigateToQuestion]
  by_cases h : 0 ≤ index ∧ index < (s.questions.length : Int)
  · rw [if_pos h]
    refine ⟨fun _ => ?_, fun hc => absurd h hc, ?_⟩
    · exact Int.toNat_of_nonneg h.1
    · show index.toNat < s.questions.length
      omega
  · rw [if_neg h]
    exact ⟨fun hc => absurd hc h, fun _ => rfl, hinv⟩

/-- C6 witness: navigating to index 1 of a two-question session moves the
cursor there and keeps it in bounds. -/
theorem C6_navigate_bounds_witness :
    (sTwo.questions ≠ [] ∧ sTwo.currentQuestionIndex < sTwo.questions.length) ∧
    (((0 ≤ (1 : Int) ∧ (1 : Int) < (sTwo.questions.length : Int)) →
      ((navigateToQuestion 1 sTwo).currentQuestionIndex : Int) = 1) ∧
     (¬(0 ≤ (1 : Int) ∧ (1 : Int) < (sTwo.questions.length : Int)) →
      navigateToQuestion 1 sTwo = sTwo) ∧
     (navigateToQuestion 1 sTwo).currentQuestionIndex <
       (navigateToQuestion 1 sTwo).questions.length) :=
  ⟨⟨by decide, by decide⟩, C6_navigate_bounds sTwo 1 (by decide) (by decide)⟩

/-- C7: `startQuiz` samples exactly `min count |filtered|` questions from
the configured filter, wraps each with `userAnswer = null` and
`showAnswer = false`, and sets the duration to `ceil(count * 1.2)`
minutes from the requested count. -/
theorem C7_sampling (shuffle : List Question → List Question) (now : Nat)
    (config : QuizConfig) (s : QuizState)
    (hperm : (shuffle (filterQuestions config s.allQuestions)).Perm
      (filterQuestions config s.allQuestions)) :
    (startQuiz shuffle now config s).questions.length =
      min config.count (filterQuestions config s.allQuestions).length ∧
    (startQuiz shuffle now config s).questions.map (fun sq => sq.userAnswer) =
      List.replicate (startQuiz shuffle now config s).questions.length none ∧
    (startQuiz shuffle now config s).questions.map (fun sq => sq.showAnswer) =
      List.replicate (startQuiz shuffle now config s).questions.length false ∧
    (startQuiz shuffle now config s).questions.map (fun sq => sq.toQuestion) ⊆
      filterQuestions config s.allQuestions ∧
    ((startQuiz shuffle now config s).testDurationMinutes : Int) =
      ⌈(config.count : Rat) * (6 / 5)⌉ := by
  have hq : (startQuiz shuffle now config s).questions =
      ((shuffle (filterQuestions config s.allQuestions)).take config.count).map
        (fun q => { toQuestion := q, userAnswer := none, showAnswer := false }) := rfl
  refine ⟨?_, ?_, ?_, ?_, ?_⟩
  · rw [hq, List.length_map, List.length_take, hperm.length_eq]
  · rw [hq, map_wrap_userAnswer, List.length_map]
  · rw [hq, map_wrap_showAnswer, List.length_map]
  · rw [hq, map_wrap_toQuestion]
    exact (List.take_subset _ _).trans hperm.subset
  · exact natCeil_six_fifths config.count

/-- C7 witness: requesting 5 questions of subject `A` from a bank with
exactly 3 matching questions yields 3 questions and a 6-minute duration. -/
theorem C7_sampling_witness :
    ((fun l => l) (filterQuestions ⟨"subject", "A", 5⟩ sBank.allQuestions)).Perm
      (filterQuestions ⟨"subject", "A", 5⟩ sBank.allQuestions) ∧
    ((startQuiz (fun l => l) 0 ⟨"subject", "A", 5⟩ sBank).questions.length =
      min 5 (filterQuestions ⟨"subject", "A", 5⟩ sBank.allQuestions).length ∧
     (startQuiz (fun l => l) 0 ⟨"subject", "A", 5⟩ sBank).questions.map (fun sq => sq.userAnswer) =
      List.replicate (startQuiz (fun l => l) 0 ⟨"subject", "A", 5⟩ sBank).questions.length none ∧
     (startQuiz (fun l => l) 0 ⟨"subject", "A", 5⟩ sBank).questions.map (fun sq => sq.showAnswer) =
      List.replicate (startQuiz (fun l => l) 0 ⟨"subject", "A", 5⟩ sBank).questions.length false ∧
     (startQuiz (fun l => l) 0 ⟨"subject", "A", 5⟩ sBank).questions.map (fun sq => sq.toQuestion) ⊆
      filterQuestions ⟨"subject", "A", 5⟩ sBank.allQuestions ∧
     ((startQuiz (fun l => l) 0 ⟨"subject", "A", 5⟩ sBank).testDurationMinutes : Int) =
      ⌈((5 : Nat) : Rat) * (6 / 5)⌉) ∧
    (startQuiz (fun l => l) 0 ⟨"subject", "A", 5⟩ sBank).questions.length = 3 ∧
    (startQuiz (fun l => l) 0 ⟨"subject", "A", 5⟩ sBank).testDurationMinutes = 6 :=
  ⟨List.Perm.refl _,
    C7_sampling (fun l => l) 0 ⟨"subject", "A", 5⟩ sBank (List.Perm.refl _),
    by decide, by decide⟩

/-- C8 (amended): the file handler leaves the bank untouched exactly for
non-array or empty-array inputs; any non-empty array of records —
well-formed or not — replaces the whole bank atomically. -/
theorem C8_load_validation (s : QuizState) (qs : List Question) (hne : qs ≠ []) :
    handleFileChange ParsedFile.notArray s = s ∧
    handleFileChange (ParsedFile.array []) s = s ∧
    (handleFileChange (ParsedFile.array qs) s).allQuestions = qs ∧
    handleFileChange (ParsedFile.array qs) s = { s with allQuestions := qs } := by
  have hpos : 0 < qs.length := List.length_pos.mpr hne
  refine ⟨rfl, rfl, ?_, ?_⟩
  · show (if 0 < qs.length then loadQuestions qs s else s).allQuestions = qs
    rw [if_pos hpos]
    rfl
  · show (if 0 < qs.length then loadQuestions qs s else s) = _
    rw [if_pos hpos]
    rfl

/-- C8 witness: a one-record array replaces the bank; non-array and empty
inputs leave it untouched. -/
theorem C8_load_validation_witness :
    [bankQ 1] ≠ ([] : List Question) ∧
    (handleFileChange ParsedFile.notArray initialState = initialState ∧
     handleFileChange (ParsedFile.array []) initialState = initialState ∧
     (handleFileChange (ParsedFile.array [bankQ 1]) initialState).allQuestions = [bankQ 1] ∧
     handleFileChange (ParsedFile.array [bankQ 1]) initialState =
       { initialState with allQuestions := [bankQ 1] }) :=
  ⟨by decide, C8_load_validation initialState [bankQ 1] (by decide)⟩

/-- C8 counterexample: a non-empty array containing a malformed record
(empty `options`) is loaded anyway, changing the bank, although the claim
requires an `InvalidCorpus` failure that leaves the bank untouched. -/
theorem C8_load_counterexample :
    specWellFormedQuestion badQ = false ∧
    (handleFileChange (ParsedFile.array [badQ]) initialState).allQuestions ≠
      initialState.allQuestions := by
  decide

/-- C9: `reset` restores every session field to its idle default and
leaves the question bank exactly as it was. -/
theorem C9_reset_frame (s : QuizState) :
    (reset s).questions = [] ∧ (reset s).currentQuestionIndex = 0 ∧
    (reset s).isTestRunning = false ∧ (reset s).startTime = 0 ∧
    (reset s).finalResults = none ∧ (reset s).testDurationMinutes = 0 ∧
    (reset s).allQuestions = s.allQuestions ∧
    reset s = { initialState with allQuestions := s.allQuestions } :=
  ⟨rfl, rfl, rfl, rfl, rfl, rfl, rfl, rfl⟩

/-- C10: a question whose category is absent or empty is aggregated under
the `General` topic: that bucket exists and counts exactly the
truthy-answered questions keyed `General`. -/
theorem C10_general_bucket (qs : List SessionQuestion) (q : SessionQuestion)
    (hq : q ∈ qs) (hcat : q.category = none ∨ q.category = some "") :
    lookupTopic (calculateAnalysis qs).topicAnalysis "General" =
      some (qs.countP (correctInCat "General"), qs.countP (answeredInCat "General")) := by
  have hkey : categoryKey q = "General" := by
    rcases hcat with h | h <;> simp [categoryKey, h]
  have hmemk : "General" ∈ qs.map categoryKey := by
    rw [List.mem_map]
    exact ⟨q, hq, hkey⟩
  obtain ⟨hnd, hmem, hcnt⟩ := calculateAnalysis_statsInv qs
  have hsome : ∃ e ∈ (calculateAnalysis qs).topicAnalysis, e.topic = "General" := by
    have h1 : "General" ∈ (calculateAnalysis qs).topicAnalysis.map (fun e => e.topic) := by
      rw [topicAnalysis_topics]
      exact (hmem "General").mpr hmemk
    rw [List.mem_map] at h1
    obtain ⟨e, he, het⟩ := h1
    exact ⟨e, he, het⟩
  rcases hfind : (calculateAnalysis qs).topicAnalysis.find? (fun e => e.topic == "General") with _ | e
  · obtain ⟨e, he, het⟩ := hsome
    have hnone := List.find?_eq_none.mp hfind e he
    rw [het] at hnone
    simp at hnone
  · have hmem2 := List.mem_of_find?_eq_some hfind
    have hpe := List.find?_some hfind
    have het : e.topic = "General" := by simpa using hpe
    obtain ⟨p, hp, h1, h2, h3⟩ := topicAnalysis_mem hmem2
    obtain ⟨ht, hc⟩ := hcnt p hp
    have hp1 : p.1 = "General" := h1.symm.trans het
    rw [lookupTopic, hfind]
    show some (e.correct, e.total) = _
    rw [h2, h3, ht, hc, hp1]

/-- C10 witness: one correctly answered question with no category field
lands in the `General` bucket with `correct = 1, total = 1`. -/
theorem C10_general_bucket_witness :
    (qGeneralAns ∈ [qGeneralAns] ∧ qGeneralAns.category = none) ∧
    lookupTopic (calculateAnalysis [qGeneralAns]).topicAnalysis "General" = some (1, 1) :=
  ⟨⟨by decide, rfl⟩,
    (C10_general_bucket [qGeneralAns] qGeneralAns (by decide) (Or.inl rfl)).trans (by decide)⟩

end Quiz

